import Mathlib

/-!
Shallow embedding of the FloatView seed-growth region detector
(`seed_growth_core.py`) and the block-fingerprint change scheduler
(`adaptive_block_monitor.py`), with theorems settling the frozen claims.

Modelling conventions:
* numpy pixel arrays become `Frame`/`Band` structures holding a size and a
  total indexing function; numpy slice clipping is modelled by
  `py_slice_index`.
* Python ints are `Int` (`Nat` where the source value is a count).
* The float `aspect_ratio = 16 / 9` is modelled as the exact fraction
  `aspect_num / aspect_den`; Python's `int(h * (16/9))` is
  `Int.tdiv (h * 16) 9` (truncation toward zero, matching `int()`), which
  agrees with the double-precision computation at every height used here.
* Python `//` (floor division) is `Int.fdiv`.
* Fallible code returns `Except PyError`; the unbounded `while` loop of
  `grow_seeds` takes a fuel parameter and reports `outOfFuel` when the
  loop has not converged within the given number of rounds.
* `random.randint` draws are modelled by an explicit stream `rng : Nat → Int`
  (draw number `k` of the pass returns `rng k`).
* The md5 digest of a tile's raw bytes is modelled as the byte list itself
  (a deterministic fingerprint; only equality of digests is ever used).
-/

namespace FloatView

/-- An RGB frame: height, width, and a row-major 3-channel pixel buffer. -/
structure Frame where
  height : Nat
  width : Nat
  pix : Nat → Nat → Fin 3 → Nat

/-- A rectangular band of pixels handed to a wall comparator
(a numpy view `pixels[r1:r2, c1:c2]`). -/
structure Band where
  h : Nat
  w : Nat
  pix : Nat → Nat → Fin 3 → Nat

/-- A rectangle `(x1, y1, x2, y2)` in half-open pixel coordinates. -/
abbrev Rect := Int × Int × Int × Int

/-- The four walls of a seed rectangle. -/
inductive Wall
  | top
  | bottom
  | left
  | right
deriving DecidableEq

/-- Runtime failures of the Python source, plus fuel exhaustion of the
modelled `while` loop. -/
inductive PyError
  | rangeZeroStep
  | indexOutOfRange
  | nanToInt
  | zeroDivision
  | outOfFuel
deriving DecidableEq

/-- Indices produced by Python's `range(0, n, step)`: empty for negative
`step` (and for `n = 0`); `step = 0` raises and is excluded by callers. -/
def stride_idxs (n : Nat) (step : Int) : List Nat :=
  if step ≤ 0 then []
  else (List.range ((n + step.toNat - 1) / step.toNat)).map (fun i => i * step.toNat)

/-- The sampled pixel positions of a band under stride `step` in both
dimensions, in the row-major order of the source's nested loops. -/
def sample_points (h w : Nat) (step : Int) : List (Nat × Nat) :=
  (stride_idxs h step).flatMap (fun i => (stride_idxs w step).map (fun j => (i, j)))

/-- Sum of one colour channel over the sampled positions of a band
(the loop accumulation `r1 += ...` of `compare_avg_color_numba`). -/
def chan_sum (b : Band) (step : Int) (c : Fin 3) : Nat :=
  ((sample_points b.h b.w step).map (fun p => b.pix p.1 p.2 c)).sum

/-- Number of sampled positions (the `count1 += 1` accumulation). -/
def sample_count (b : Band) (step : Int) : Nat :=
  (sample_points b.h b.w step).length

/-- Floor average of one channel over the sampled positions. -/
def chan_avg (b : Band) (step : Int) (c : Fin 3) : Nat :=
  chan_sum b step c / sample_count b step

/-- `compare_avg_color_numba(current_pixels, next_pixels, sample_rate)`:
true when any of the three floor-averaged channels differ between the two
bands; false when either band has no sampled pixels; `sample_rate = 0`
makes `range` raise. -/
def compare_avg_color_numba (cur nxt : Band) (sample_rate : Int) :
    Except PyError Bool :=
  if sample_rate = 0 then .error .rangeZeroStep
  else
    let c1 := sample_count cur sample_rate
    let c2 := sample_count nxt sample_rate
    if c1 = 0 ∨ c2 = 0 then .ok false
    else
      .ok (decide (chan_sum cur sample_rate 0 / c1 ≠ chan_sum nxt sample_rate 0 / c2) ||
           decide (chan_sum cur sample_rate 1 / c1 ≠ chan_sum nxt sample_rate 1 / c2) ||
           decide (chan_sum cur sample_rate 2 / c1 ≠ chan_sum nxt sample_rate 2 / c2))

/-- One entry of the column profile built by
`compare_corner_horizontal_numba`: the floor average of channel `c` down
column `j` (the zero-initialised entry is kept when the band is empty). -/
def column_avg (b : Band) (j : Nat) (c : Fin 3) : Nat :=
  if b.h = 0 then 0
  else ((List.range b.h).map (fun i => b.pix i j c)).sum / b.h

/-- One entry of the row profile built by `compare_corner_vertical_numba`. -/
def row_avg (b : Band) (i : Nat) (c : Fin 3) : Nat :=
  if b.w = 0 then 0
  else ((List.range b.w).map (fun j => b.pix i j c)).sum / b.w

/-- `compare_corner_horizontal_numba`: compare the column profiles of the
two bands at indices `[0, w1 / 2, w1 - 1]`; indexing an empty or too-short
profile is out of bounds (the sample-rate argument is unused, as in the
source). -/
def compare_corner_horizontal_numba (cur nxt : Band) (_sample_rate : Int) :
    Except PyError Bool :=
  if cur.w = 0 ∨ nxt.w < cur.w then .error .indexOutOfRange
  else
    .ok (([0, cur.w / 2, cur.w - 1].any (fun idx =>
      decide (column_avg cur idx 0 ≠ column_avg nxt idx 0) ||
      decide (column_avg cur idx 1 ≠ column_avg nxt idx 1) ||
      decide (column_avg cur idx 2 ≠ column_avg nxt idx 2))))

/-- `compare_corner_vertical_numba`: row profiles compared at
`[0, h1 / 2, h1 - 1]`. -/
def compare_corner_vertical_numba (cur nxt : Band) (_sample_rate : Int) :
    Except PyError Bool :=
  if cur.h = 0 ∨ nxt.h < cur.h then .error .indexOutOfRange
  else
    .ok (([0, cur.h / 2, cur.h - 1].any (fun idx =>
      decide (row_avg cur idx 0 ≠ row_avg nxt idx 0) ||
      decide (row_avg cur idx 1 ≠ row_avg nxt idx 1) ||
      decide (row_avg cur idx 2 ≠ row_avg nxt idx 2))))

/-- The `compare_func` closure built by `grow_seeds` from `color_mode`. -/
def compare_func (color_mode : String) (wall : Wall) (cur nxt : Band)
    (sample_rate : Int) : Except PyError Bool :=
  if color_mode = "average" then compare_avg_color_numba cur nxt sample_rate
  else
    match wall with
    | .top | .bottom => compare_corner_horizontal_numba cur nxt sample_rate
    | .left | .right => compare_corner_vertical_numba cur nxt sample_rate

/-- The `Config` dataclass. `aspect_ratio = 16 / 9` is kept as the exact
fraction `aspect_num / aspect_den`. -/
structure Config where
  aspect_num : Int := 16
  aspect_den : Int := 9
  lookahead_pixels : Int := 1
  wall_thickness : Int := 1
  color_mode : String := "corners"
  jitter : Int := 0
  growth_pixels : Int := 1
  pixel_sample_rate : Int := 1

/-- Python's `int(h * aspect_ratio)`: truncation toward zero of the exact
product `h * aspect_num / aspect_den`. -/
def int_times_aspect (cfg : Config) (h : Int) : Int :=
  Int.tdiv (h * cfg.aspect_num) cfg.aspect_den

/-- The mutable state of one `Seed` object (the frame, config and zone it
references are passed explicitly to each method). -/
structure Seed where
  x1 : Int
  y1 : Int
  x2 : Int
  y2 : Int
  lock_left : Bool := false
  lock_right : Bool := false
  lock_top : Bool := false
  lock_bottom : Bool := false
  growth_complete : Bool := false
  seed_id : Nat := 0
deriving DecidableEq

/-- `Seed.__init__`: `initial_size = 5`; the grid point becomes the
top-left corner `(x1, y1)`; `x2 = center_x + int(5 * aspect_ratio)`,
`y2 = center_y + 5`. -/
def Seed.init (cfg : Config) (center_x center_y : Int) (sid : Nat) : Seed :=
  { x1 := center_x
    y1 := center_y
    x2 := center_x + int_times_aspect cfg 5
    y2 := center_y + 5
    seed_id := sid }

/-- `Seed.get_coords`. -/
def Seed.get_coords (s : Seed) : Rect := (s.x1, s.y1, s.x2, s.y2)

/-- `Seed.get_area`: `max(0, (x2-x1)*(y2-y1))`. -/
def Seed.get_area (s : Seed) : Int := max 0 ((s.x2 - s.x1) * (s.y2 - s.y1))

/-- `Seed.grow`: vertical growth, aspect-driven horizontal growth, frame
clamping, then sequential exclusion-zone clipping (each clip reads the
coordinates already updated by the previous one, as the source mutates
`self` in place). -/
def Seed.grow (cfg : Config) (screen_height screen_width : Nat)
    (exclusion_zone : Option Rect) (s : Seed) : Seed :=
  if s.growth_complete then s
  else if s.lock_left && s.lock_right then s
  else if s.lock_top && s.lock_bottom then s
  else
    let g := cfg.growth_pixels
    let yb : Int × Int :=
      if !s.lock_top && !s.lock_bottom then (s.y1 - g, s.y2 + g)
      else if !s.lock_top then (s.y1 - g * 2, s.y2)
      else if !s.lock_bottom then (s.y1, s.y2 + g * 2)
      else (s.y1, s.y2)
    let current_height := yb.2 - yb.1
    let target_width := int_times_aspect cfg current_height
    let current_width := s.x2 - s.x1
    let width_diff := target_width - current_width
    let xb : Int × Int :=
      if !s.lock_left && !s.lock_right then
        (s.x1 - Int.fdiv width_diff 2, s.x2 + (width_diff - Int.fdiv width_diff 2))
      else if !s.lock_left then (s.x1 - width_diff, s.x2)
      else if !s.lock_right then (s.x1, s.x2 + width_diff)
      else (s.x1, s.x2)
    let cx1 := max 0 xb.1
    let cy1 := max 0 yb.1
    let cx2 := min (screen_width : Int) xb.2
    let cy2 := min (screen_height : Int) yb.2
    match exclusion_zone with
    | none => { s with x1 := cx1, y1 := cy1, x2 := cx2, y2 := cy2 }
    | some (ex_x1, ex_y1, ex_x2, ex_y2) =>
      let zx1 := if cx1 < ex_x1 ∧ cx2 > ex_x1 then ex_x1 else cx1
      let zx2 := if cx2 > ex_x2 ∧ zx1 < ex_x2 then ex_x2 else cx2
      let zy1 := if cy1 < ex_y1 ∧ cy2 > ex_y1 then ex_y1 else cy1
      let zy2 := if cy2 > ex_y2 ∧ zy1 < ex_y2 then ex_y2 else cy2
      { s with x1 := zx1, y1 := zy1, x2 := zx2, y2 := zy2 }

/-- One endpoint of a Python slice `a:b` on an axis of size `dim`:
negative indices count from the end, then everything is clipped
into `[0, dim]`. -/
def py_slice_index (dim : Nat) (i : Int) : Nat :=
  if i < 0 then ((dim : Int) + i).toNat else min i.toNat dim

/-- The numpy view `screen_pixels[r1:r2, c1:c2]`. -/
def Frame.slice (f : Frame) (r1 r2 c1 c2 : Int) : Band :=
  let a := py_slice_index f.height r1
  let b := py_slice_index f.height r2
  let c := py_slice_index f.width c1
  let d := py_slice_index f.width c2
  { h := b - a, w := d - c, pix := fun i j ch => f.pix (a + i) (c + j) ch }

/-- `Seed._get_wall_pixels`. -/
def Seed.get_wall_pixels (cfg : Config) (f : Frame) (s : Seed) : Wall → Band
  | .top => f.slice s.y1 (s.y1 + cfg.wall_thickness) s.x1 s.x2
  | .bottom => f.slice (s.y2 - cfg.wall_thickness) s.y2 s.x1 s.x2
  | .left => f.slice s.y1 s.y2 s.x1 (s.x1 + cfg.wall_thickness)
  | .right => f.slice s.y1 s.y2 (s.x2 - cfg.wall_thickness) s.x2

/-- `Seed._get_next_wall_pixels(wall, growth_pixels)`: `None` when the
lookahead position coincides with the wall (frame edge reached). -/
def Seed.get_next_wall_pixels (cfg : Config) (f : Frame) (s : Seed)
    (wall : Wall) (growth_pixels : Int) : Option Band :=
  let th := cfg.wall_thickness
  match wall with
  | .top =>
    let next_y := max 0 (s.y1 - growth_pixels)
    if next_y = s.y1 then none else some (f.slice next_y (next_y + th) s.x1 s.x2)
  | .bottom =>
    let next_y := min (f.height : Int) (s.y2 + growth_pixels)
    if next_y = s.y2 then none else some (f.slice (next_y - th) next_y s.x1 s.x2)
  | .left =>
    let next_x := max 0 (s.x1 - growth_pixels)
    if next_x = s.x1 then none else some (f.slice s.y1 s.y2 next_x (next_x + th))
  | .right =>
    let next_x := min (f.width : Int) (s.x2 + growth_pixels)
    if next_x = s.x2 then none else some (f.slice s.y1 s.y2 (next_x - th) next_x)

/-- The per-wall decision of `check_and_lock_walls`: frame-bound check,
then exclusion-zone approach check, then the wall comparator (`continue`,
i.e. no lock, when the lookahead band is `None`). -/
def wall_should_lock (cfg : Config) (f : Frame) (exclusion_zone : Option Rect)
    (sample_rate : Int) (s : Seed) (wall : Wall) : Except PyError Bool :=
  let la := cfg.lookahead_pixels
  let frame_lock : Bool :=
    match wall with
    | .top => decide (s.y1 - la < 0)
    | .bottom => decide (s.y2 + la ≥ (f.height : Int))
    | .left => decide (s.x1 - la < 0)
    | .right => decide (s.x2 + la ≥ (f.width : Int))
  if frame_lock then pure true
  else
    let zone_lock : Bool :=
      match exclusion_zone with
      | none => false
      | some (ex_x1, ex_y1, ex_x2, ex_y2) =>
        match wall with
        | .top => decide (s.y2 > ex_y1 ∧ s.y1 - la < ex_y2)
        | .bottom => decide (s.y1 < ex_y2 ∧ s.y2 + la > ex_y1)
        | .left => decide (s.x2 > ex_x1 ∧ s.x1 - la < ex_x2)
        | .right => decide (s.x1 < ex_x2 ∧ s.x2 + la > ex_x1)
    if zone_lock then pure true
    else
      match Seed.get_next_wall_pixels cfg f s wall la with
      | none => pure false
      | some nxt =>
        compare_func cfg.color_mode wall (Seed.get_wall_pixels cfg f s wall)
          nxt sample_rate

/-- `Seed.check_and_lock_walls(sample_rate)`: walls already locked stay
locked and are not re-checked; walls are examined in the source order
top, bottom, left, right (each decision reads only the untouched
coordinates, so batching the four decisions is faithful); finally the
completion rule fires on an opposite locked pair or on three locks. -/
def Seed.check_and_lock_walls (cfg : Config) (f : Frame)
    (exclusion_zone : Option Rect) (sample_rate : Int) (s : Seed) :
    Except PyError Seed := do
  let lt ← if s.lock_top then pure true
           else wall_should_lock cfg f exclusion_zone sample_rate s .top
  let lb ← if s.lock_bottom then pure true
           else wall_should_lock cfg f exclusion_zone sample_rate s .bottom
  let ll ← if s.lock_left then pure true
           else wall_should_lock cfg f exclusion_zone sample_rate s .left
  let lr ← if s.lock_right then pure true
           else wall_should_lock cfg f exclusion_zone sample_rate s .right
  let cnt : Nat := (if ll then 1 else 0) + (if lr then 1 else 0) +
                   (if lt then 1 else 0) + (if lb then 1 else 0)
  pure { s with
    lock_top := lt
    lock_bottom := lb
    lock_left := ll
    lock_right := lr
    growth_complete := s.growth_complete || ((ll && lr) || (lt && lb)) || decide (3 ≤ cnt) }

/-- One round of the `while active_seeds` loop: `check_and_lock_walls` on
every still-growing seed, then `grow` on every seed (`grow` itself returns
unchanged on completed seeds, as in the source). -/
def round_step (cfg : Config) (f : Frame) (exclusion_zone : Option Rect)
    (sample_rate : Int) (seeds : List Seed) : Except PyError (List Seed) := do
  let checked ← seeds.mapM (fun s =>
    if s.growth_complete then pure s
    else Seed.check_and_lock_walls cfg f exclusion_zone sample_rate s)
  pure (checked.map (fun s => Seed.grow cfg f.height f.width exclusion_zone s))

/-- The `while active_seeds` loop, bounded by fuel: loop while some seed
is still growing. -/
def run_rounds (cfg : Config) (f : Frame) (exclusion_zone : Option Rect)
    (sample_rate : Int) : Nat → List Seed → Except PyError (List Seed)
  | 0, seeds =>
    if seeds.all (fun s => s.growth_complete) then pure seeds
    else .error .outOfFuel
  | Nat.succ fuel, seeds =>
    if seeds.all (fun s => s.growth_complete) then pure seeds
    else do
      let seeds' ← round_step cfg f exclusion_zone sample_rate seeds
      run_rounds cfg f exclusion_zone sample_rate fuel seeds'

/-- Exactly `n` rounds of the loop (for observing mid-pass states). -/
def round_iter (cfg : Config) (f : Frame) (exclusion_zone : Option Rect)
    (sample_rate : Int) : Nat → List Seed → Except PyError (List Seed)
  | 0, seeds => pure seeds
  | Nat.succ n, seeds =>
    (round_step cfg f exclusion_zone sample_rate seeds).bind
      (round_iter cfg f exclusion_zone sample_rate n)

/-- `int(np.ceil(np.sqrt(n)))`. -/
def ceil_sqrt (n : Nat) : Nat :=
  if Nat.sqrt n * Nat.sqrt n = n then Nat.sqrt n else Nat.sqrt n + 1

/-- The jittered seed grid of `grow_seeds`. The source's row/col loops with
the `seed_idx >= num_seeds` cutoff emit seeds in row-major index order, so
seed `idx` sits at `row = idx / grid_cols`, `col = idx % grid_cols`
(`grid_rows * grid_cols ≥ num_seeds` always holds). The float spacing
`int((col+1) * (width / (grid_cols+1)))` is modelled by exact integer
division, which agrees with the double computation at the sizes used here.
Draw `2*idx` and `2*idx + 1` of the random stream are the x- and y-jitter
of seed `idx` (`random.randint` is consumed in exactly this order). -/
def make_seeds (cfg : Config) (f : Frame) (num_seeds : Nat)
    (rng : Nat → Int) : List Seed :=
  let grid_cols := ceil_sqrt num_seeds
  let grid_rows := (num_seeds + grid_cols - 1) / grid_cols
  (List.range num_seeds).map (fun idx =>
    let row := idx / grid_cols
    let col := idx % grid_cols
    let cx0 : Int := (((col + 1) * f.width) / (grid_cols + 1) : Nat)
    let cy0 : Int := (((row + 1) * f.height) / (grid_rows + 1) : Nat)
    let cx := if 0 < cfg.jitter then
        max 0 (min (f.width : Int) (cx0 + rng (2 * idx))) else cx0
    let cy := if 0 < cfg.jitter then
        max 0 (min (f.height : Int) (cy0 + rng (2 * idx + 1))) else cy0
    Seed.init cfg cx cy idx)

/-- The `rectangles_overlap` helper of `grow_seeds`. -/
def rectangles_overlap (rect1 rect2 : Rect) : Bool :=
  match rect1, rect2 with
  | (x1a, y1a, x2a, y2a), (x1b, y1b, x2b, y2b) =>
    !(decide (x2a < x1b) || decide (x2b < x1a) ||
      decide (y2a < y1b) || decide (y2b < y1a))

/-- Stable insertion of an indexed seed into a list ranked by area
descending: the new element goes after every element of at least its area
(so equal areas keep original index order, like Python's stable sort). -/
def rank_insert (p : Nat × Seed) : List (Nat × Seed) → List (Nat × Seed)
  | [] => [p]
  | q :: rest =>
    if Seed.get_area p.2 ≤ Seed.get_area q.2 then q :: rank_insert p rest
    else p :: q :: rest

/-- `sorted(enumerate(seeds), key=lambda x: x[1].get_area(), reverse=True)`:
a stable sort by area descending, ties in original index order. -/
def rank_seeds (seeds : List Seed) : List (Nat × Seed) :=
  seeds.enum.foldl (fun acc p => rank_insert p acc) []

/-- The greedy overlap-suppressing selection loop of `grow_seeds`:
skip a candidate overlapping any accepted seed, otherwise append it and
break once `len(top_seeds) >= num_keep`. -/
def select_no_overlap (num_keep : Int) :
    List (Nat × Seed) → List (Nat × Seed) → List (Nat × Seed)
  | selected, [] => selected
  | selected, p :: rest =>
    if selected.any (fun q =>
        rectangles_overlap (Seed.get_coords p.2) (Seed.get_coords q.2)) then
      select_no_overlap num_keep selected rest
    else
      if num_keep ≤ ((selected ++ [p]).length : Int) then selected ++ [p]
      else select_no_overlap num_keep (selected ++ [p]) rest

/-- Python's slice `l[:k]`, including the negative-`k` behaviour. -/
def py_take (k : Int) (l : List (Nat × Seed)) : List (Nat × Seed) :=
  if 0 ≤ k then l.take k.toNat else l.take ((l.length : Int) + k).toNat

/-- `grow_seeds`. There is no config validation in the source:
`num_seeds < 0` makes `int(np.ceil(np.sqrt(num_seeds)))` raise
(`int(nan)`), `num_seeds = 0` makes `num_seeds / grid_cols` divide by
zero, and every other argument flows straight into seed construction and
growth. -/
def grow_seeds (fuel : Nat) (num_seeds num_keep : Int) (f : Frame)
    (lookahead_pixels wall_thickness : Int) (color_mode : String)
    (jitter growth_pixels pixel_sample_rate : Int) (no_overlap : Bool)
    (exclusion_zone : Option Rect) (rng : Nat → Int) :
    Except PyError (List (Rect × Int)) :=
  if num_seeds < 0 then .error .nanToInt
  else if num_seeds = 0 then .error .zeroDivision
  else
    let cfg : Config :=
      { lookahead_pixels := lookahead_pixels
        wall_thickness := wall_thickness
        color_mode := color_mode
        jitter := jitter
        growth_pixels := growth_pixels
        pixel_sample_rate := pixel_sample_rate }
    let seeds := make_seeds cfg f num_seeds.toNat rng
    match run_rounds cfg f exclusion_zone pixel_sample_rate fuel seeds with
    | .error e => .error e
    | .ok final =>
      let sorted_seeds := rank_seeds final
      let top_seeds :=
        if no_overlap then select_no_overlap num_keep [] sorted_seeds
        else py_take num_keep sorted_seeds
      .ok (top_seeds.map (fun p => (Seed.get_coords p.2, Seed.get_area p.2)))

/-! ## Block fingerprinting and the change scheduler
(`adaptive_block_monitor.py`). -/

/-- A block key `(y // block_size, x // block_size)`. -/
abbrev BlockKey := Nat × Nat

/-- The md5 digest of a tile, modelled as the tile's raw byte sequence. -/
abbrev BlockHash := List Nat

/-- `get_block_hash(pixels)`: the raw bytes of the tile
`screen_pixels[y0:y1, x0:x1]` in row-major, channel-minor order. -/
def get_block_hash (f : Frame) (y0 y1 x0 x1 : Nat) : BlockHash :=
  (List.range (y1 - y0)).flatMap (fun i =>
    (List.range (x1 - x0)).flatMap (fun j =>
      [f.pix (y0 + i) (x0 + j) 0, f.pix (y0 + i) (x0 + j) 1,
       f.pix (y0 + i) (x0 + j) 2]))

/-- `get_all_block_hashes(screen_pixels, block_size)`: one fingerprint per
`block_size × block_size` tile (edge tiles clipped to the frame), keyed by
`(y // block_size, x // block_size)`. -/
def get_all_block_hashes (f : Frame) (block_size : Nat) :
    List (BlockKey × BlockHash) :=
  (stride_idxs f.height (block_size : Int)).flatMap (fun y =>
    (stride_idxs f.width (block_size : Int)).map (fun x =>
      ((y / block_size, x / block_size),
        get_block_hash f y (min (y + block_size) f.height) x
          (min (x + block_size) f.width))))

/-- Python dict lookup on the association-list model of a dict. -/
def dict_lookup (k : BlockKey) : List (BlockKey × BlockHash) → Option BlockHash
  | [] => none
  | kv :: rest => if kv.1 = k then some kv.2 else dict_lookup k rest

/-- The per-key test of `calculate_change_percentage`:
`block_key not in previous_hashes or previous_hashes[block_key] != current_hashes[block_key]`. -/
def block_changed (previous_hashes : List (BlockKey × BlockHash))
    (kv : BlockKey × BlockHash) : Bool :=
  match dict_lookup kv.1 previous_hashes with
  | none => true
  | some v => decide (v ≠ kv.2)

/-- `calculate_change_percentage(previous_hashes, current_hashes)`. -/
def calculate_change_percentage
    (previous_hashes current_hashes : List (BlockKey × BlockHash)) : ℚ :=
  if previous_hashes = [] then 0
  else
    let changed_count := (current_hashes.filter (block_changed previous_hashes)).length
    let total_count := current_hashes.length
    if 0 < total_count then ((changed_count : ℚ) / (total_count : ℚ)) * 100 else 0

/-! ## Geometric predicates used to state the claims. -/

/-- A pixel `(px, py)` of the half-open rectangle `(x1, y1, x2, y2)`. -/
def pixel_in_rect (r : Rect) (px py : Int) : Prop :=
  match r with
  | (x1, y1, x2, y2) => x1 ≤ px ∧ px < x2 ∧ y1 ≤ py ∧ py < y2

/-- The open interiors of two axis-aligned rectangles intersect. -/
def rect_interiors_overlap (r z : Rect) : Bool :=
  match r, z with
  | (rx1, ry1, rx2, ry2), (zx1, zy1, zx2, zy2) =>
    decide (max rx1 zx1 < min rx2 zx2 ∧ max ry1 zy1 < min ry2 zy2)

/-- Rectangle `r` lies inside rectangle `z`. -/
def rect_inside (r z : Rect) : Bool :=
  match r, z with
  | (rx1, ry1, rx2, ry2), (zx1, zy1, zx2, zy2) =>
    decide (zx1 ≤ rx1 ∧ zy1 ≤ ry1 ∧ rx2 ≤ zx2 ∧ ry2 ≤ zy2)

/-! ## Concrete scenarios. -/

/-- A uniformly black frame. -/
def black_frame (h w : Nat) : Frame :=
  { height := h, width := w, pix := fun _ _ _ => 0 }

/-- The spec's scenario frame: 100×100, black background, white square on
rows/cols `[10, 90)`. -/
def scenB_frame : Frame :=
  { height := 100, width := 100,
    pix := fun r c _ => if 10 ≤ r ∧ r < 90 ∧ 10 ≤ c ∧ c < 90 then 255 else 0 }

/-- A constant random stream (unused whenever `jitter = 0`). -/
def zero_rng : Nat → Int := fun _ => 0

/-- Scenario B of the spec: one seed, `wall_thickness = 1`,
`lookahead_pixels = 1`, `growth_pixels = 1`, Average colour mode,
`exclusionZone = (40, 40, 60, 60)`. -/
def scenB_result : Except PyError (List (Rect × Int)) :=
  grow_seeds 5 1 1 scenB_frame 1 1 "average" 0 1 1 false
    (some (40, 40, 60, 60)) zero_rng

/-- Config of the C2 exclusion-zone pass: growth 12, lookahead 1,
Average mode, no jitter. -/
def c2_cfg : Config :=
  { lookahead_pixels := 1, wall_thickness := 1, color_mode := "average",
    jitter := 0, growth_pixels := 12, pixel_sample_rate := 1 }

/-- The C2 pass: one seed on a uniform 100×100 frame with exclusion zone
`(90, 70, 100, 99)`. -/
def c2_zone : Option Rect := some (90, 70, 100, 99)

/-- The single seed of the C2 pass at creation. -/
def c2_seeds : List Seed := make_seeds c2_cfg (black_frame 100 100) 1 zero_rng

/-- The seed states of the C2 pass after `n` growth rounds. -/
def c2_after (n : Nat) : Except PyError (List Seed) :=
  round_iter c2_cfg (black_frame 100 100) c2_zone 1 n c2_seeds

/-- Config of the `growth_pixels = 0` pass on a uniform 6×6 frame. -/
def c5_cfg : Config :=
  { lookahead_pixels := 1, wall_thickness := 1, color_mode := "average",
    jitter := 0, growth_pixels := 0, pixel_sample_rate := 1 }

/-- The single seed of the `growth_pixels = 0` pass at creation. -/
def c5_seeds : List Seed := make_seeds c5_cfg (black_frame 6 6) 1 zero_rng

/-- The seed state the `growth_pixels = 0` pass reaches after two rounds
(a fixpoint of the round step that is not growth-complete). -/
def c5_stuck : Seed :=
  { x1 := 1, y1 := 3, x2 := 6, y2 := 6,
    lock_left := false, lock_right := true, lock_top := false,
    lock_bottom := true, growth_complete := false, seed_id := 0 }

/-- The seed state of the `growth_pixels = 0` pass after one round. -/
def c5_mid : Seed :=
  { x1 := 3, y1 := 3, x2 := 6, y2 := 6,
    lock_left := false, lock_right := true, lock_top := false,
    lock_bottom := true, growth_complete := false, seed_id := 0 }

/-- A 1×1 all-zero band. -/
def unit_band : Band := { h := 1, w := 1, pix := fun _ _ _ => 0 }

/-- A 1×1 band of value 9 on every channel. -/
def bright_band : Band := { h := 1, w := 1, pix := fun _ _ _ => 9 }

/-! ## Helper lemmas. -/

/-- Once the round step fixes a seed list containing a still-growing seed,
the `while active_seeds` loop never terminates, whatever the fuel. -/
lemma run_rounds_fixpoint (cfg : Config) (f : Frame) (zone : Option Rect)
    (sr : Int) (seeds : List Seed)
    (hfix : round_step cfg f zone sr seeds = .ok seeds)
    (hactive : seeds.all (fun s => s.growth_complete) = false) :
    ∀ fuel, run_rounds cfg f zone sr fuel seeds = .error .outOfFuel := by
  intro fuel
  induction fuel with
  | zero => rw [run_rounds, if_neg (by simp [hactive])]
  | succ n ih =>
    rw [run_rounds, if_neg (by simp [hactive]), hfix]
    exact ih

/-- The `growth_pixels = 0` pass on a uniform 6×6 frame never converges. -/
lemma c5_run (fuel : Nat) :
    run_rounds c5_cfg (black_frame 6 6) none 1 fuel c5_seeds = .error .outOfFuel := by
  match fuel with
  | 0 => rfl
  | 1 => rfl
  | (n + 2) =>
    have h1 : round_step c5_cfg (black_frame 6 6) none 1 c5_seeds = .ok [c5_mid] := rfl
    have h2 : round_step c5_cfg (black_frame 6 6) none 1 [c5_mid] = .ok [c5_stuck] := rfl
    have h3 : round_step c5_cfg (black_frame 6 6) none 1 [c5_stuck] = .ok [c5_stuck] := rfl
    rw [run_rounds, if_neg (by decide), h1]
    show run_rounds c5_cfg (black_frame 6 6) none 1 (n + 1) [c5_mid] = _
    rw [run_rounds, if_neg (by decide), h2]
    show run_rounds c5_cfg (black_frame 6 6) none 1 n [c5_stuck] = _
    exact run_rounds_fixpoint c5_cfg (black_frame 6 6) none 1 [c5_stuck] h3 (by decide) n

/-- The same non-convergence, stated on the exact terms produced by
unfolding `grow_seeds`. -/
lemma c5_run_lit (fuel : Nat) :
    run_rounds
      { aspect_num := 16, aspect_den := 9, lookahead_pixels := 1,
        wall_thickness := 1, color_mode := "average", jitter := 0,
        growth_pixels := 0, pixel_sample_rate := 1 } (black_frame 6 6) none 1 fuel
      (make_seeds
        { aspect_num := 16, aspect_den := 9, lookahead_pixels := 1,
          wall_thickness := 1, color_mode := "average", jitter := 0,
          growth_pixels := 0, pixel_sample_rate := 1 } (black_frame 6 6)
        (Int.toNat 1) zero_rng) = .error .outOfFuel :=
  c5_run fuel

/-! ## Claims. -/

/-- **C1, counterexample.** On the scenario-B inputs (100×100 frame with a
white square on rows/cols `[10, 90)`, `exclusionZone = (40, 40, 60, 60)`,
one seed, `wall_thickness = 1`, `lookahead_pixels = 1`,
`growth_pixels = 1`, Average mode), `grow_seeds` returns the rectangle
`(50, 50, 58, 55)` whose interior overlaps the zone's interior — the
claimed disjointness fails. -/
theorem c1_counterexample :
    scenB_result = .ok [((50, 50, 58, 55), 40)] ∧
    rect_interiors_overlap (50, 50, 58, 55) (40, 40, 60, 60) = true :=
  ⟨rfl, rfl⟩

/-- **C1, amended.** Walls approaching the exclusion zone from outside are
locked and clipped at the zone, but a seed whose initial rectangle lies
inside the zone is not ejected: on the scenario-B inputs the single seed
spawns at grid point (50, 50) inside the zone, all four walls lock
immediately via the zone checks, and `grow_seeds` returns
`((50, 50, 58, 55), 40)`, a rectangle contained in the zone. -/
theorem c1_amended :
    scenB_result = .ok [((50, 50, 58, 55), 40)] ∧
    rect_inside (50, 50, 58, 55) (40, 40, 60, 60) = true :=
  ⟨rfl, rfl⟩

/-- **C2, counterexample.** Seed area is not monotone across rounds: on a
uniform 100×100 frame with exclusion zone `(90, 70, 100, 99)`,
`growth_pixels = 12`, `lookahead_pixels = 1`, Average mode, the single
seed's area is 1479 after round 1 and only 90 after round 2 (the zone
clipping of `grow` snaps the rectangle into the zone's column and chops
it), and the full pass also ends at area 90. -/
theorem c2_counterexample :
    (c2_after 1).map (List.map Seed.get_area) = .ok [1479] ∧
    (c2_after 2).map (List.map Seed.get_area) = .ok [90] ∧
    grow_seeds 10 1 1 (black_frame 100 100) 1 1 "average" 0 12 1 false
      c2_zone zero_rng = .ok [((90, 70, 100, 79), 90)] :=
  ⟨rfl, rfl, rfl⟩

/-- **C5, counterexample.** A call with non-positive `growth_pixels`
(here 0) does not fail fast with any configuration error: the seed is
created, the growth loop runs (two rounds shown), reaches a
non-complete fixpoint, and the pass never returns. -/
theorem c5_counterexample :
    grow_seeds 5 1 1 (black_frame 6 6) 1 1 "average" 0 0 1 false none
      zero_rng = .error .outOfFuel ∧
    c5_seeds.length = 1 ∧
    round_iter c5_cfg (black_frame 6 6) none 1 2 c5_seeds = .ok [c5_stuck] ∧
    c5_stuck.growth_complete = false :=
  ⟨rfl, rfl, rfl, rfl⟩

/-- **C5, amended.** `grow_seeds` performs no configuration validation:
with `growth_pixels = 0` it constructs its seed and the growth loop runs
forever (modelled: out of fuel for every fuel) instead of failing fast
with an `InvalidConfig` error; with `num_seeds = 0` the grid computation
divides by zero and with `num_seeds < 0` `int(nan)` raises — generic
arithmetic errors, not a typed `InvalidConfig`. -/
theorem c5_amended :
    c5_seeds.length = 1 ∧
    (∀ fuel, grow_seeds fuel 1 1 (black_frame 6 6) 1 1 "average" 0 0 1 false
      none zero_rng = .error .outOfFuel) ∧
    (∀ fuel nk f rng, grow_seeds fuel 0 nk f 1 1 "average" 0 1 1 false none rng
      = .error .zeroDivision) ∧
    (∀ fuel nk f rng, grow_seeds fuel (-3) nk f 1 1 "average" 0 1 1 false none rng
      = .error .nanToInt) := by
  refine ⟨rfl, fun fuel => ?_, fun fuel nk f rng => ?_, fun fuel nk f rng => ?_⟩
  · simp only [grow_seeds]
    rw [if_neg (by norm_num), if_neg (by norm_num), c5_run_lit fuel]
  · rw [grow_seeds, if_neg (by norm_num), if_pos rfl]
  · rw [grow_seeds, if_pos (by norm_num)]

/-- **C9, counterexample.** The grid point is not the centre of the
initial rectangle: a seed initialised at grid point (50, 50) has
`x1 = 50`, `y1 = 50`, `x2 = 58`, `y2 = 55`, so the grid point is the
top-left corner (the distance from the grid point to the left edge is 0,
to the right edge 8). -/
theorem c9_counterexample :
    (Seed.init {} 50 50 0).x1 = 50 ∧ (Seed.init {} 50 50 0).y1 = 50 ∧
    (Seed.init {} 50 50 0).x2 = 58 ∧ (Seed.init {} 50 50 0).y2 = 55 ∧
    ¬(50 - (Seed.init {} 50 50 0).x1 = (Seed.init {} 50 50 0).x2 - 50) := by
  refine ⟨rfl, rfl, rfl, rfl, by decide⟩

/-- **C9, amended.** Every seed created by the seed grid starts as a small
rectangle of height 5 and width `int(5 * aspect_ratio)` whose *top-left
corner* (not centre) is the (possibly jittered) grid point:
`x2 = x1 + int(5 * aspect_ratio)`, `y2 = y1 + 5`, with all four walls
unlocked and growth not complete. -/
theorem c9_amended (cfg : Config) (f : Frame) (num : Nat) (rng : Nat → Int) :
    ∀ s ∈ make_seeds cfg f num rng,
      s.y2 = s.y1 + 5 ∧ s.x2 = s.x1 + int_times_aspect cfg 5 ∧
      s.lock_left = false ∧ s.lock_right = false ∧ s.lock_top = false ∧
      s.lock_bottom = false ∧ s.growth_complete = false := by
  intro s hs
  rw [make_seeds, List.mem_map] at hs
  obtain ⟨idx, _, rfl⟩ := hs
  exact ⟨rfl, rfl, rfl, rfl, rfl, rfl, rfl⟩

/-- The overlap test of the selection loop is symmetric. -/
lemma rectangles_overlap_comm (r1 r2 : Rect) :
    rectangles_overlap r1 r2 = rectangles_overlap r2 r1 := by
  rcases r1 with ⟨x1a, y1a, x2a, y2a⟩
  rcases r2 with ⟨x1b, y1b, x2b, y2b⟩
  simp only [rectangles_overlap]
  by_cases h1 : x2a < x1b <;> by_cases h2 : x2b < x1a <;>
    by_cases h3 : y2a < y1b <;> by_cases h4 : y2b < y1a <;>
    simp [h1, h2, h3, h4]

/-- The greedy selection keeps its accumulator pairwise overlap-free. -/
lemma select_no_overlap_pairwise (k : Int) :
    ∀ (l acc : List (Nat × Seed)),
      acc.Pairwise (fun p q =>
        rectangles_overlap (Seed.get_coords p.2) (Seed.get_coords q.2) = false) →
      (select_no_overlap k acc l).Pairwise (fun p q =>
        rectangles_overlap (Seed.get_coords p.2) (Seed.get_coords q.2) = false)
  | [], acc, hacc => hacc
  | p :: rest, acc, hacc => by
    rw [select_no_overlap]
    split
    · exact select_no_overlap_pairwise k rest acc hacc
    · rename_i hov
      have hov' : ∀ q ∈ acc,
          rectangles_overlap (Seed.get_coords p.2) (Seed.get_coords q.2) = false := by
        intro q hq
        have := (List.any_eq_false.mp (Bool.of_not_eq_true hov)) q hq
        simpa using this
      have hacc' : (acc ++ [p]).Pairwise (fun p q =>
          rectangles_overlap (Seed.get_coords p.2) (Seed.get_coords q.2) = false) := by
        rw [List.pairwise_append]
        refine ⟨hacc, List.pairwise_singleton _ _, ?_⟩
        intro a ha b hb
        rw [List.mem_singleton] at hb
        subst hb
        rw [rectangles_overlap_comm]
        exact hov' a ha
      split
      · exact hacc'
      · exact select_no_overlap_pairwise k rest (acc ++ [p]) hacc'

/-- The greedy selection never exceeds `num_keep` elements once the
accumulator is below the bound. -/
lemma select_no_overlap_length (k : Int) :
    ∀ (l acc : List (Nat × Seed)), (acc.length : Int) < k →
      ((select_no_overlap k acc l).length : Int) ≤ k
  | [], acc, h => by rw [select_no_overlap]; omega
  | p :: rest, acc, h => by
    rw [select_no_overlap]
    split
    · exact select_no_overlap_length k rest acc h
    · split
      · rename_i hk
        simp only [List.length_append, List.length_singleton]
        push_cast
        omega
      · rename_i hk
        refine select_no_overlap_length k rest (acc ++ [p]) ?_
        simp only [List.length_append, List.length_singleton] at hk ⊢
        push_cast at hk ⊢
        omega

/-- **C3, amended.** With overlap suppression enabled, every pair of
returned rectangles fails the source's overlap test, and the list has at
most `num_keep` elements *provided `num_keep ≥ 1`* (the source appends a
first rectangle before checking the bound, so `num_keep ≤ 0` still yields
one rectangle whenever any seed exists — see the counterexample). -/
theorem c3_amended (fuel : Nat) (num_seeds num_keep : Int) (f : Frame)
    (la th : Int) (mode : String) (j g sr : Int) (zone : Option Rect)
    (rng : Nat → Int) (out : List (Rect × Int))
    (h : grow_seeds fuel num_seeds num_keep f la th mode j g sr true zone rng = .ok out) :
    out.Pairwise (fun a b => rectangles_overlap a.1 b.1 = false) ∧
    (1 ≤ num_keep → (out.length : Int) ≤ num_keep) := by
  simp only [grow_seeds] at h
  split at h
  · exact absurd h (by simp)
  split at h
  · exact absurd h (by simp)
  split at h
  · exact absurd h (by simp)
  · rename_i final hrr
    rw [if_pos trivial] at h
    rw [Except.ok.injEq] at h
    subst h
    constructor
    · rw [List.pairwise_map]
      exact select_no_overlap_pairwise num_keep (rank_seeds final) [] List.Pairwise.nil
    · intro hk
      rw [List.length_map]
      exact select_no_overlap_length num_keep (rank_seeds final) [] (by simpa using hk)

/-- **C3 witness.** Instantiated on a one-seed pass over a uniform 6×6
frame (`num_keep = 1`, overlap suppression on). -/
theorem c3_witness :
    ([((0, 1, 6, 6), (30 : Int))] : List (Rect × Int)).Pairwise
      (fun a b => rectangles_overlap a.1 b.1 = false) ∧
    (1 ≤ (1 : Int) →
      ((([((0, 1, 6, 6), (30 : Int))] : List (Rect × Int)).length : Int) ≤ 1)) :=
  c3_amended 10 1 1 (black_frame 6 6) 1 1 "average" 0 1 1 none zero_rng
    [((0, 1, 6, 6), 30)] rfl

/-- **C3, counterexample.** With `num_keep = 0` and overlap suppression
on, a one-seed pass still returns one rectangle: the greedy loop appends
the first candidate before checking the bound, so "at most `num_keep`
elements" fails for non-positive `num_keep`. -/
theorem c3_counterexample :
    grow_seeds 10 1 0 (black_frame 6 6) 1 1 "average" 0 1 1 true none zero_rng
      = .ok [((0, 1, 6, 6), 30)] ∧
    ¬((([((0, 1, 6, 6), (30 : Int))] : List (Rect × Int)).length : Int) ≤ 0) :=
  ⟨rfl, by decide⟩

/-- Seed placement does not read the random stream when `jitter = 0`. -/
lemma make_seeds_rng (cfg : Config) (hj : cfg.jitter = 0) (f : Frame)
    (n : Nat) (rng rng' : Nat → Int) :
    make_seeds cfg f n rng = make_seeds cfg f n rng' := by
  rw [make_seeds, make_seeds]
  apply List.map_congr_left
  intro idx _
  simp [hj]

/-- **C6.** With `jitter = 0`, `grow_seeds` is a pure deterministic
function of (frame, config): its result is independent of the random
stream, so two calls on identical inputs return identical outputs. -/
theorem c6_theorem (fuel : Nat) (num_seeds num_keep : Int) (f : Frame)
    (la th : Int) (mode : String) (g sr : Int) (no_overlap : Bool)
    (zone : Option Rect) (rng1 rng2 : Nat → Int) :
    grow_seeds fuel num_seeds num_keep f la th mode 0 g sr no_overlap zone rng1 =
    grow_seeds fuel num_seeds num_keep f la th mode 0 g sr no_overlap zone rng2 := by
  simp only [grow_seeds]
  rw [make_seeds_rng _ rfl f num_seeds.toNat rng1 rng2]

/-- **C7, amended.** For `sampleRate ≥ 1` the Average-Color comparator
returns (without error) `true` iff both bands have sampled pixels and some
channel's floor average differs; a band with zero sampled pixels yields
`false` ("no data"). A negative `sampleRate` samples nothing and yields
`false`. But `sampleRate = 0` makes `range` raise, so "always returns a
boolean, never raising" does not hold — see the counterexample. -/
theorem c7_amended (cur nxt : Band) (sr : Int) :
    (1 ≤ sr → compare_avg_color_numba cur nxt sr =
      .ok (decide (sample_count cur sr ≠ 0 ∧ sample_count nxt sr ≠ 0 ∧
        ∃ c : Fin 3, chan_avg cur sr c ≠ chan_avg nxt sr c))) ∧
    (sr < 0 → compare_avg_color_numba cur nxt sr = .ok false) ∧
    (sr = 0 → compare_avg_color_numba cur nxt sr = .error .rangeZeroStep) := by
  refine ⟨?_, ?_, ?_⟩
  · intro hsr
    simp only [compare_avg_color_numba]
    rw [if_neg (by omega : ¬ sr = 0)]
    by_cases hz : sample_count cur sr = 0 ∨ sample_count nxt sr = 0
    · rw [if_pos hz]
      congr 1
      rcases hz with h | h <;> simp [h]
    · rw [if_neg hz]
      push_neg at hz
      congr 1
      rw [← Bool.decide_or, ← Bool.decide_or, decide_eq_decide]
      simp only [hz.1, hz.2, ne_eq, not_false_iff, true_and]
      constructor
      · rintro ((h | h) | h)
        exacts [⟨0, by simpa [chan_avg] using h⟩, ⟨1, by simpa [chan_avg] using h⟩,
          ⟨2, by simpa [chan_avg] using h⟩]
      · rintro ⟨c, hc⟩
        fin_cases c
        · exact Or.inl (Or.inl (by simpa [chan_avg] using hc))
        · exact Or.inl (Or.inr (by simpa [chan_avg] using hc))
        · exact Or.inr (by simpa [chan_avg] using hc)
  · intro hsr
    have hst : ∀ n, stride_idxs n sr = [] := fun n => by
      rw [stride_idxs, if_pos (by omega)]
    have hc : sample_count cur sr = 0 := by
      simp [sample_count, sample_points, hst]
    simp only [compare_avg_color_numba]
    rw [if_neg (by omega : ¬ sr = 0), if_pos (Or.inl hc)]
  · intro h
    rw [compare_avg_color_numba, if_pos h]

/-- **C7, counterexample.** With `sample_rate = 0` the comparator raises
(`range` with step 0) instead of returning a boolean. -/
theorem c7_counterexample :
    compare_avg_color_numba unit_band unit_band 0 = .error .rangeZeroStep := rfl

/-- **C7 witness.** Instantiated at `sampleRate = 1` on two 1×1 bands. -/
theorem c7_witness :
    (1 ≤ (1 : Int)) ∧
    compare_avg_color_numba unit_band bright_band 1 =
      .ok (decide (sample_count unit_band 1 ≠ 0 ∧ sample_count bright_band 1 ≠ 0 ∧
        ∃ c : Fin 3, chan_avg unit_band 1 c ≠ chan_avg bright_band 1 c)) :=
  ⟨by decide, (c7_amended unit_band bright_band 1).1 (by decide)⟩

/-- Monotonicity of `max 0 (w * h)` under widening of both extents. -/
lemma area_mono_core {ax1 ay1 ax2 ay2 bx1 by1 bx2 by2 : Int}
    (h1 : bx1 ≤ ax1) (h2 : ax2 ≤ bx2) (h3 : by1 ≤ ay1) (h4 : ay2 ≤ by2)
    (hx : ax1 ≤ ax2) (hy : ay1 ≤ ay2) :
    max 0 ((ax2 - ax1) * (ay2 - ay1)) ≤ max 0 ((bx2 - bx1) * (by2 - by1)) := by
  have hwn : (0 : Int) ≤ ax2 - ax1 := by omega
  have hhn : (0 : Int) ≤ ay2 - ay1 := by omega
  calc max 0 ((ax2 - ax1) * (ay2 - ay1)) = (ax2 - ax1) * (ay2 - ay1) :=
        max_eq_right (mul_nonneg hwn hhn)
    _ ≤ (bx2 - bx1) * (by2 - by1) :=
        mul_le_mul (by omega) (by omega) hhn (by omega)
    _ ≤ max 0 ((bx2 - bx1) * (by2 - by1)) := le_max_right _ _

/-- **C2, amended.** One grow step never shrinks the area *when no
exclusion zone is present*, the rectangle is well-formed and within frame
bounds, and the current width does not exceed the aspect target of the
grown height (an invariant growth maintains): growing can only move each
edge outward and frame clamping cannot pull an in-bounds edge inward.
With an exclusion zone the clipping can shrink the rectangle and area can
drop — see the counterexample. -/
theorem c2_amended (cfg : Config) (H W : Nat) (s : Seed)
    (hg : 0 ≤ cfg.growth_pixels)
    (hx1 : 0 ≤ s.x1) (hy1 : 0 ≤ s.y1) (hx2 : s.x2 ≤ (W : Int)) (hy2 : s.y2 ≤ (H : Int))
    (hxo : s.x1 ≤ s.x2) (hyo : s.y1 ≤ s.y2)
    (hw : s.x2 - s.x1 ≤ int_times_aspect cfg (s.y2 - s.y1 + 2 * cfg.growth_pixels)) :
    Seed.get_area s ≤ Seed.get_area (Seed.grow cfg H W none s) := by
  rw [Seed.grow]
  split
  · exact le_refl _
  split
  · exact le_refl _
  split
  · exact le_refl _
  rename_i hcomp hlr htb
  cases hbt : s.lock_top <;> cases hbb : s.lock_bottom <;>
    cases hbl : s.lock_left <;> cases hbr : s.lock_right <;>
    simp only [hbt, hbb, hbl, hbr, Bool.not_true, Bool.not_false, Bool.true_and,
      Bool.false_and, Bool.and_true, Bool.and_false, Bool.and_self,
      Bool.false_eq_true, Bool.true_eq_false,
      if_true, if_false, Seed.get_area] at hlr htb ⊢ <;>
  first
  | exact absurd trivial hlr
  | exact absurd trivial htb
  | ((first
      | rw [show (s.y2 + cfg.growth_pixels) - (s.y1 - cfg.growth_pixels)
            = s.y2 - s.y1 + 2 * cfg.growth_pixels from by ring]
      | rw [show s.y2 - (s.y1 - cfg.growth_pixels * 2)
            = s.y2 - s.y1 + 2 * cfg.growth_pixels from by ring]
      | rw [show (s.y2 + cfg.growth_pixels * 2) - s.y1
            = s.y2 - s.y1 + 2 * cfg.growth_pixels from by ring])
     set tw := int_times_aspect cfg (s.y2 - s.y1 + 2 * cfg.growth_pixels) with htw
     have hwd : 0 ≤ tw - (s.x2 - s.x1) := by omega
     have hfd0 : 0 ≤ Int.fdiv (tw - (s.x2 - s.x1)) 2 :=
       Int.fdiv_nonneg hwd (by norm_num)
     have hfd1 : Int.fdiv (tw - (s.x2 - s.x1)) 2 ≤ tw - (s.x2 - s.x1) := by
       rw [Int.fdiv_eq_ediv _ (by norm_num)]
       omega
     apply area_mono_core <;> omega)

/-- The concrete in-bounds seed used to witness `c2_amended`. -/
def c2w_seed : Seed := { x1 := 10, y1 := 10, x2 := 20, y2 := 20 }

/-- **C2 witness.** `c2_amended` instantiated on a 10×10 seed in a
100×100 frame under the default config. -/
theorem c2_witness :
    (0 ≤ ({} : Config).growth_pixels ∧ 0 ≤ c2w_seed.x1 ∧ 0 ≤ c2w_seed.y1 ∧
     c2w_seed.x2 ≤ ((100 : Nat) : Int) ∧ c2w_seed.y2 ≤ ((100 : Nat) : Int) ∧
     c2w_seed.x1 ≤ c2w_seed.x2 ∧ c2w_seed.y1 ≤ c2w_seed.y2 ∧
     c2w_seed.x2 - c2w_seed.x1 ≤
       int_times_aspect {} (c2w_seed.y2 - c2w_seed.y1 + 2 * ({} : Config).growth_pixels)) ∧
    Seed.get_area c2w_seed ≤ Seed.get_area (Seed.grow {} 100 100 none c2w_seed) :=
  ⟨⟨by decide, by decide, by decide, by decide, by decide, by decide, by decide,
    by decide⟩,
   c2_amended {} 100 100 c2w_seed (by decide) (by decide) (by decide) (by decide)
     (by decide) (by decide) (by decide) (by decide)⟩

/-- **C4.** `calculate_change_percentage` returns 0 when the previous
fingerprint is empty/absent; otherwise it is
`100 × changed / total` over the keys of the current fingerprint (0 when
the current fingerprint is empty), and the result always lies in
`[0, 100]`. -/
theorem c4_theorem (prev curr : List (BlockKey × BlockHash)) :
    (prev = [] → calculate_change_percentage prev curr = 0) ∧
    (prev ≠ [] → curr = [] → calculate_change_percentage prev curr = 0) ∧
    (prev ≠ [] → curr ≠ [] →
      calculate_change_percentage prev curr =
        100 * ((curr.filter (block_changed prev)).length : ℚ) / (curr.length : ℚ)) ∧
    0 ≤ calculate_change_percentage prev curr ∧
    calculate_change_percentage prev curr ≤ 100 := by
  by_cases hp : prev = []
  · simp [calculate_change_percentage, hp]
  · by_cases hc : curr = []
    · subst hc
      simp [calculate_change_percentage, hp]
    · have hlen : 0 < curr.length := List.length_pos.mpr hc
      have hfil : ((curr.filter (block_changed prev)).length : ℚ) ≤ (curr.length : ℚ) := by
        exact_mod_cast List.length_filter_le _ _
      have hpos : (0 : ℚ) < (curr.length : ℚ) := by exact_mod_cast hlen
      have hr : calculate_change_percentage prev curr =
          ((curr.filter (block_changed prev)).length : ℚ) / (curr.length : ℚ) * 100 := by
        simp only [calculate_change_percentage]
        rw [if_neg hp, if_pos hlen]
      refine ⟨fun h => absurd h hp, fun _ h => absurd h hc,
        fun _ _ => by rw [hr]; ring, ?_, ?_⟩
      · rw [hr]; positivity
      · rw [hr]
        have h1 : ((curr.filter (block_changed prev)).length : ℚ) / (curr.length : ℚ) ≤ 1 :=
          (div_le_one hpos).mpr hfil
        linarith

/-- Previous fingerprint used to witness `c4_theorem`. -/
def c4w_prev : List (BlockKey × BlockHash) := [((0, 0), [1])]

/-- Current fingerprint used to witness `c4_theorem`: one changed key and
one new key. -/
def c4w_curr : List (BlockKey × BlockHash) := [((0, 0), [2]), ((0, 1), [1])]

/-- **C4 witness.** `c4_theorem` instantiated on concrete fingerprints. -/
theorem c4_witness :
    calculate_change_percentage c4w_prev c4w_curr =
      100 * ((c4w_curr.filter (block_changed c4w_prev)).length : ℚ) /
        (c4w_curr.length : ℚ) ∧
    0 ≤ calculate_change_percentage c4w_prev c4w_curr ∧
    calculate_change_percentage c4w_prev c4w_curr ≤ 100 :=
  ⟨(c4_theorem c4w_prev c4w_curr).2.2.1 (by decide) (by decide),
   (c4_theorem c4w_prev c4w_curr).2.2.2.1,
   (c4_theorem c4w_prev c4w_curr).2.2.2.2⟩

/-- A key bound once in a dict is looked up to its own value. -/
lemma dict_lookup_self {l : List (BlockKey × BlockHash)}
    (hnd : (l.map Prod.fst).Nodup) :
    ∀ kv ∈ l, dict_lookup kv.1 l = some kv.2 := by
  induction l with
  | nil => simp
  | cons hd tl ih =>
    intro kv hkv
    rw [List.map_cons, List.nodup_cons] at hnd
    rcases List.mem_cons.mp hkv with rfl | htl
    · rw [dict_lookup, if_pos rfl]
    · rw [dict_lookup]
      split
      · rename_i heq
        exact absurd (heq ▸ List.mem_map_of_mem Prod.fst htl) hnd.1
      · exact ih hnd.2 kv htl

/-- Comparing any dict with duplicate-free keys against itself yields a
zero change ratio. -/
lemma change_zero_of_nodup (l : List (BlockKey × BlockHash))
    (hnd : (l.map Prod.fst).Nodup) :
    calculate_change_percentage l l = 0 := by
  have hfil : l.filter (block_changed l) = [] := by
    rw [List.filter_eq_nil_iff]
    intro kv hkv
    simp [block_changed, dict_lookup_self hnd kv hkv]
  by_cases hp : l = []
  · simp [calculate_change_percentage, hp]
  · simp only [calculate_change_percentage, hfil]
    simp [hp]

/-- The block keys produced by `get_all_block_hashes` are duplicate-free
(they are exactly the grid-coordinate pairs). -/
lemma get_all_keys_nodup (f : Frame) (b : Nat) (hb : 1 ≤ b) :
    ((get_all_block_hashes f b).map Prod.fst).Nodup := by
  have hb0 : 0 < b := hb
  have hdiv : ∀ m : Nat, m * b / b = m := fun m => Nat.mul_div_cancel m hb0
  have hstride : ∀ n : Nat, stride_idxs n (b : Int) =
      (List.range ((n + b - 1) / b)).map (fun i => i * b) := fun n => by
    rw [stride_idxs, if_neg (by omega : ¬ ((b : Int) ≤ 0))]
    simp [Int.toNat_natCast]
  rw [get_all_block_hashes, List.map_flatMap]
  rw [hstride, hstride, List.flatMap_map]
  simp only [List.map_map, Function.comp_def, hdiv]
  exact List.Nodup.product (List.nodup_range _) (List.nodup_range _)

/-- **C8.** Fingerprinting a frame twice and comparing yields zero
change: `change_ratio(compute_fingerprint(F, b), compute_fingerprint(F, b)) = 0`
for every frame `F` and block size `b ≥ 1`. -/
theorem c8_theorem (f : Frame) (b : Nat) (hb : 1 ≤ b) :
    calculate_change_percentage (get_all_block_hashes f b)
      (get_all_block_hashes f b) = 0 :=
  change_zero_of_nodup _ (get_all_keys_nodup f b hb)

/-- A small non-uniform 2×3 frame used to witness `c8_theorem`. -/
def c8w_frame : Frame := { height := 2, width := 3, pix := fun r c i => r + c + i }

/-- **C8 witness.** `c8_theorem` instantiated at block size 2. -/
theorem c8_witness :
    (1 ≤ 2) ∧
    calculate_change_percentage (get_all_block_hashes c8w_frame 2)
      (get_all_block_hashes c8w_frame 2) = 0 :=
  ⟨by decide, c8_theorem c8w_frame 2 (by decide)⟩

/-- **C10.** The overlap test uses strict inequalities, so two well-formed
rectangles that share an edge segment (here `x2` of the first equals `x1`
of the second) are reported as overlapping even though, in half-open
coordinates, they share no pixel; consequently the greedy selection
rejects the lower-ranked of the two. -/
theorem c10_theorem (x1a y1a x2a y2a x1b y1b x2b y2b : Int)
    (hxa : x1a ≤ x2a) (hxb : x1b ≤ x2b) (hadj : x2a = x1b)
    (hy1 : y1b ≤ y2a) (hy2 : y1a ≤ y2b) :
    rectangles_overlap (x1a, y1a, x2a, y2a) (x1b, y1b, x2b, y2b) = true ∧
    (∀ px py : Int, ¬(pixel_in_rect (x1a, y1a, x2a, y2a) px py ∧
                      pixel_in_rect (x1b, y1b, x2b, y2b) px py)) ∧
    (∀ sa sb : Seed, Seed.get_coords sa = (x1a, y1a, x2a, y2a) →
      Seed.get_coords sb = (x1b, y1b, x2b, y2b) →
      select_no_overlap 2 [] [(0, sa), (1, sb)] = [(0, sa)]) := by
  have hov : rectangles_overlap (x1a, y1a, x2a, y2a) (x1b, y1b, x2b, y2b) = true := by
    simp only [rectangles_overlap, Bool.not_eq_true', Bool.or_eq_false_iff,
      decide_eq_false_iff_not]
    omega
  refine ⟨hov, ?_, ?_⟩
  · rintro px py ⟨ha, hb⟩
    simp only [pixel_in_rect] at ha hb
    omega
  · intro sa sb hca hcb
    rw [select_no_overlap]
    rw [if_neg (by simp)]
    rw [if_neg (by norm_num)]
    rw [select_no_overlap]
    rw [if_pos ?hany]
    case hany =>
      simp only [List.nil_append, List.any_cons, List.any_nil, Bool.or_false, hca, hcb]
      rw [rectangles_overlap_comm]
      exact hov
    rw [select_no_overlap, List.nil_append]

/-- **C10 witness.** Two edge-adjacent 10×10 rectangles are reported as
overlapping. -/
theorem c10_witness :
    ((0 : Int) ≤ 10 ∧ (10 : Int) ≤ 20 ∧ (10 : Int) = 10 ∧
     (0 : Int) ≤ 10 ∧ (0 : Int) ≤ 10) ∧
    rectangles_overlap (0, 0, 10, 10) (10, 0, 20, 10) = true :=
  ⟨⟨by decide, by decide, rfl, by decide, by decide⟩,
   (c10_theorem 0 0 10 10 10 0 20 10 (by decide) (by decide) rfl (by decide)
     (by decide)).1⟩

/-- **C9 witness.** Instantiated on the single seed of the C2 pass. -/
theorem c9_witness :
    Seed.init c2_cfg 50 50 0 ∈ make_seeds c2_cfg (black_frame 100 100) 1 zero_rng ∧
    ((Seed.init c2_cfg 50 50 0).y2 = (Seed.init c2_cfg 50 50 0).y1 + 5 ∧
     (Seed.init c2_cfg 50 50 0).x2 =
       (Seed.init c2_cfg 50 50 0).x1 + int_times_aspect c2_cfg 5 ∧
     (Seed.init c2_cfg 50 50 0).lock_left = false ∧
     (Seed.init c2_cfg 50 50 0).lock_right = false ∧
     (Seed.init c2_cfg 50 50 0).lock_top = false ∧
     (Seed.init c2_cfg 50 50 0).lock_bottom = false ∧
     (Seed.init c2_cfg 50 50 0).growth_complete = false) :=
  ⟨by decide, c9_amended c2_cfg (black_frame 100 100) 1 zero_rng
    (Seed.init c2_cfg 50 50 0) (by decide)⟩

end FloatView
